import Mathlib

/-!
Verification development for the PyStitch360 repository.

Shallow embedding of the core components of the repository:
- src/core/preprocessor.py : Preprocessor.detect_gopro_files, Preprocessor.concat_videos,
  Preprocessor.adjust_sync
- src/core/stitcher.py : Stitcher.load_calibration, Stitcher.blend_images,
  Stitcher.apply_orientation
- src/gui/stitching_thread.py : StitchingThread.run

Images (numpy uint8 arrays of shape (h, w, c)) are modelled by a structure carrying the
three dimensions and a total pixel function; equality of two arrays in the numpy sense
(same shape and equal elements at every in-bounds index) is the relation imgEq below.
External collaborators (ffmpeg, the encoder, the filesystem) are modelled by explicit
outcome parameters, and the functions return the observable effects (traces, flags)
the source produces through them.
-/

namespace PyStitch

/-! ## Asset discovery: Preprocessor.detect_gopro_files (src/core/preprocessor.py:20-66) -/

/-- The match performed at one backtracking position of the regex tail pattern:
the escaped literal dot followed by the literal letters MP4, then anything (the
source patterns are not end-anchored). -/
def tailMatch : List Char → Bool
  | '.' :: 'M' :: 'P' :: '4' :: _ => true
  | _ => false

/-- Largest number k of digits the greedy digit run of the regex can consume,
between lo and run, such that the rest of the string then matches the tail pattern.
Python regex digit-plus is greedy with backtracking, so a successful match consumes
the largest such k; because the tail starts with a literal dot, a k smaller than the
full run would have to match the dot against a digit, so only k = run can succeed. -/
def pickK (s : List Char) (run lo : ℕ) : Option ℕ :=
  (((List.range (run + 1)).filter fun k => lo ≤ k && tailMatch (s.drop k))).max?

/-- Numeric value of a digit string, as Python int() of the matched group. -/
def natOfDigits (ds : List Char) : ℕ :=
  ds.foldl (fun a c => 10 * a + (c.toNat - '0'.toNat)) 0

/-- Embedding of re.match of the pattern GOPR, one or more digits, a literal dot,
MP4 against a filename, returning the int value of the digit group when the match
succeeds (src/core/preprocessor.py:44-46). -/
def matchGOPR (name : String) : Option ℕ :=
  match name.toList with
  | 'G' :: 'O' :: 'P' :: 'R' :: rest =>
    let run := (rest.takeWhile Char.isDigit).length
    match pickK rest run 1 with
    | some k => some (natOfDigits (rest.take k))
    | none => none
  | _ => none

/-- Embedding of re.match of the pattern GP, two adjacent greedy digit groups (at
least two digits), a literal dot, MP4 against a filename; on success the source
classifies by the character at index 2 of the name, the first digit after GP
(src/core/preprocessor.py:53-56).  Returns that digit value. -/
def matchGP (name : String) : Option ℕ :=
  match name.toList with
  | 'G' :: 'P' :: rest =>
    let run := (rest.takeWhile Char.isDigit).length
    match pickK rest run 2 with
    | some _ =>
      match rest with
      | c :: _ => some (c.toNat - '0'.toNat)
      | [] => none
    | none => none
  | _ => none

/-- Whether a character list ends with the four characters dot-M-P-4. -/
def endsWithMP4 : List Char → Bool
  | ['.', 'M', 'P', '4'] => true
  | _ :: rest => endsWithMP4 rest
  | [] => false

/-- Embedding of directory.glob applied to the pattern star-dot-MP4: the name ends in
.MP4 (case sensitive, as on the Linux filesystem the program targets) and is not a
hidden dotfile (glob skips names starting with a dot). -/
def globMP4 (name : String) : Bool :=
  match name.toList with
  | '.' :: _ => false
  | cs => endsWithMP4 cs

/-- The classification loop body of detect_gopro_files: some true ⇒ appended to the
front list, some false ⇒ appended to the back list, none ⇒ ignored
(src/core/preprocessor.py:40-59). -/
def classOf (name : String) : Option Bool :=
  match matchGOPR name with
  | some n => some (n % 2 == 0)
  | none =>
    match matchGP name with
    | some d => some (d % 2 == 0)
    | none => none

/-- The loop of detect_gopro_files over the globbed listing, building the front and
back lists in listing order. -/
def classifyLoop : List String → List String × List String
  | [] => ([], [])
  | n :: ns =>
    let r := classifyLoop ns
    match classOf n with
    | some true => (n :: r.1, r.2)
    | some false => (r.1, n :: r.2)
    | none => r

/-- Python string comparison: lexicographic by Unicode code point, a strict prefix
comparing less. -/
def strLeb : List Char → List Char → Bool
  | [], _ => true
  | _ :: _, [] => false
  | x :: xs, y :: ys =>
    if x.toNat < y.toNat then true
    else if y.toNat < x.toNat then false
    else strLeb xs ys

/-- Insertion into a sorted list under strLeb. -/
def insertSorted (x : String) : List String → List String
  | [] => [x]
  | y :: ys => if strLeb x.toList y.toList then x :: y :: ys else y :: insertSorted x ys

/-- Ascending stable sort of filenames, as Python list.sort on the paths of one
directory. -/
def sortNames (l : List String) : List String := l.foldr insertSorted []

/-- Embedding of Preprocessor.detect_gopro_files (src/core/preprocessor.py:20-66).
The filesystem is supplied as the flag dirExists and the list of names in the
directory; the third component of the result records whether the error branch
(logger.error on a missing directory) was taken.  Both lists are sorted by filename,
as by list.sort on the paths. -/
def detect_gopro_files (dirExists : Bool) (listing : List String) :
    List String × List String × Bool :=
  if !dirExists then ([], [], true)
  else
    let files := listing.filter globMP4
    let fb := classifyLoop files
    (sortNames fb.1, sortNames fb.2, false)

/-! ## Stream preparation: Preprocessor.concat_videos (src/core/preprocessor.py:68-127)

The external effects (writing the playlist file, invoking ffmpeg, unlinking the
playlist, copying a single file) are recorded as an event trace; the outcome of the
external subprocess invocation is a parameter.  The single-file branch copies with
shutil.copy2, whose outcome is the copyOk parameter. -/

/-- Outcome of the subprocess.run invocation of ffmpeg: the process ran and exited
with a status code, or the invocation itself raised (for example the executable is
missing); writeRaises models the playlist-file open raising before anything is
written. -/
inductive RunOutcome
  | exit (code : ℤ)
  | raises
  | writeRaises
  deriving DecidableEq

/-- Observable filesystem / collaborator events of concat_videos, in order. -/
inductive CEv
  | writePlaylist
  | runFfmpeg
  | unlinkPlaylist
  | copySingle
  deriving DecidableEq

/-- Embedding of Preprocessor.concat_videos (src/core/preprocessor.py:68-127).
Returns the success flag and the ordered trace of external effects.  In the
multi-file branch the source writes the playlist, runs ffmpeg, unlinks the playlist,
and only then tests the return code; an exception raised by subprocess.run jumps to
the except branch before the unlink line. -/
def concat_videos (files : List String) (copyOk : Bool) (outcome : RunOutcome) :
    Bool × List CEv :=
  if files.isEmpty then (false, [])
  else if files.length = 1 then (copyOk, [CEv.copySingle])
  else
    match outcome with
    | RunOutcome.writeRaises => (false, [])
    | RunOutcome.raises => (false, [CEv.writePlaylist, CEv.runFfmpeg])
    | RunOutcome.exit c =>
      (c == 0, [CEv.writePlaylist, CEv.runFfmpeg, CEv.unlinkPlaylist])

/-! ## Stream preparation: Preprocessor.adjust_sync (src/core/preprocessor.py:129-173)

The two ffmpeg invocations are modelled by the trim/codec options the source passes
to them.  The front frame rate comes from probing video1 (the front stream); a zero
frame rate would make the division raise ZeroDivisionError, which the except branch
turns into a failed call, hence the none result. -/

/-- Options of one ffmpeg invocation in adjust_sync: the optional ss trim start in
seconds, and the vcodec/acodec copy flags. -/
structure FfOp where
  trimStart : Option ℚ
  vcodecCopy : Bool
  acodecCopy : Bool
  deriving DecidableEq

/-- A plain stream copy: no trim, both codecs copied. -/
def FfOp.copy : FfOp := ⟨none, true, true⟩

/-- A trim from t seconds onward, stream-copied. -/
def FfOp.trim (t : ℚ) : FfOp := ⟨some t, true, true⟩

/-- Embedding of Preprocessor.adjust_sync (src/core/preprocessor.py:129-173);
fps is the probed frame rate of video1 (the front stream); the result is the pair of
operations applied to (video1, video2), or none when the call fails. -/
def adjust_sync (fps : ℚ) (offset_frames : ℤ) : Option (FfOp × FfOp) :=
  if fps = 0 then none
  else
    let offset_seconds : ℚ := (offset_frames : ℚ) / fps
    if offset_frames > 0 then
      some (FfOp.copy, FfOp.trim offset_seconds)
    else if offset_frames < 0 then
      some (FfOp.trim |offset_seconds|, FfOp.copy)
    else
      some (FfOp.copy, FfOp.copy)

/-! ## Calibration: Stitcher.load_calibration (src/core/stitcher.py:27-58)

The parsed YAML document is modelled by an inductive value; the six assignments of
the source execute in order inside a try block, and the first failing lookup or
non-numeric np.array conversion jumps to the except branch, leaving every assignment
already made in place. -/

/-- A parsed YAML value as produced by yaml.safe_load. -/
inductive Yaml
  | num (q : ℚ)
  | str (s : String)
  | list (xs : List Yaml)
  | dict (kvs : List (String × Yaml))

/-- Subscripting a parsed value with a string key, as Python v[k]: succeeds only on a
dict containing the key; on anything else Python raises (TypeError/KeyError), which
the except branch of the source catches. -/
def Yaml.getKey : Yaml → String → Option Yaml
  | Yaml.dict kvs, k => (kvs.find? (fun kv => kv.1 == k)).map Prod.snd
  | _, _ => none

/-- Whether np.array(v, dtype=np.float32) succeeds on the value: every leaf must be a
number (a string or dict leaf raises ValueError on the float conversion). -/
def Yaml.isNumTree : Yaml → Bool
  | Yaml.num _ => true
  | Yaml.str _ => false
  | Yaml.dict _ => false
  | Yaml.list xs => go xs
where go : List Yaml → Bool
  | [] => true
  | x :: xs => x.isNumTree && go xs

/-- calib[k] followed by np.array(..., dtype=np.float32): fails when the key is
missing or the value is not numeric. -/
def fieldArr (calib : Yaml) (k : String) : Option Yaml :=
  match calib.getKey k with
  | some v => if v.isNumTree then some v else none
  | none => none

/-- The calibration-related attributes of a Stitcher instance; all none after
__init__ (src/core/stitcher.py:17-25). -/
structure StitcherState where
  calibration_data : Option Yaml := none
  camera_matrix_left : Option Yaml := none
  camera_matrix_right : Option Yaml := none
  dist_coeffs_left : Option Yaml := none
  dist_coeffs_right : Option Yaml := none
  rotation_matrix : Option Yaml := none
  translation_vector : Option Yaml := none

/-- Embedding of Stitcher.load_calibration (src/core/stitcher.py:27-58) applied to an
already-parsed document (the function is entered after yaml.safe_load succeeded).
Assignments happen one by one in source order; the first failure returns False with
the state as mutated so far. -/
def load_calibration (doc : Yaml) (s : StitcherState) : Bool × StitcherState :=
  let s := { s with calibration_data := some doc }
  match doc.getKey "camera_calibration" with
  | none => (false, s)
  | some calib =>
    match fieldArr calib "camera_matrix_left" with
    | none => (false, s)
    | some v1 =>
      let s := { s with camera_matrix_left := some v1 }
      match fieldArr calib "camera_matrix_right" with
      | none => (false, s)
      | some v2 =>
        let s := { s with camera_matrix_right := some v2 }
        match fieldArr calib "distortion_left" with
        | none => (false, s)
        | some v3 =>
          let s := { s with dist_coeffs_left := some v3 }
          match fieldArr calib "distortion_right" with
          | none => (false, s)
          | some v4 =>
            let s := { s with dist_coeffs_right := some v4 }
            match fieldArr calib "rotation_matrix" with
            | none => (false, s)
            | some v5 =>
              let s := { s with rotation_matrix := some v5 }
              match fieldArr calib "translation_vector" with
              | none => (false, s)
              | some v6 =>
                (true, { s with translation_vector := some v6 })

/-- All six calibration fields are populated. -/
def allSix (s : StitcherState) : Prop :=
  s.camera_matrix_left.isSome ∧ s.camera_matrix_right.isSome ∧
  s.dist_coeffs_left.isSome ∧ s.dist_coeffs_right.isSome ∧
  s.rotation_matrix.isSome ∧ s.translation_vector.isSome

/-- None of the six calibration fields is populated (the calibration is absent). -/
def noneOfSix (s : StitcherState) : Prop :=
  s.camera_matrix_left.isNone ∧ s.camera_matrix_right.isNone ∧
  s.dist_coeffs_left.isNone ∧ s.dist_coeffs_right.isNone ∧
  s.rotation_matrix.isNone ∧ s.translation_vector.isNone

instance (s : StitcherState) : Decidable (allSix s) := by unfold allSix; infer_instance

instance (s : StitcherState) : Decidable (noneOfSix s) := by unfold noneOfSix; infer_instance

/-! ## Images

A numpy uint8 array of shape (h, w, c), modelled by its dimensions and a total pixel
function (out-of-bounds values are irrelevant: array equality in the numpy sense
compares shapes and in-bounds elements only). -/

/-- A 3-D numpy array of shape (h, w, c) with natural-number (uint8) samples. -/
structure Img where
  h : ℕ
  w : ℕ
  c : ℕ
  pix : ℕ → ℕ → ℕ → ℕ

/-- Equality of two arrays in the numpy sense (np.array_equal /
np.testing.assert_array_equal): identical shape and identical elements at every
in-bounds index. -/
def imgEq (a b : Img) : Prop :=
  a.h = b.h ∧ a.w = b.w ∧ a.c = b.c ∧
  ∀ y < a.h, ∀ x < a.w, ∀ k < a.c, a.pix y x k = b.pix y x k

instance (a b : Img) : Decidable (imgEq a b) := by unfold imgEq; infer_instance

/-! ## Blend engine: Stitcher.blend_images (src/core/stitcher.py:206-261)

The body of the try block is blend_core; it returns none exactly when one of its
numpy operations raises (shape-broadcast mismatch or out-of-range integer index),
in which case the except branch of the source returns image1 unchanged.
Python/numpy index conventions are made explicit: a slice endpoint is resolved
against the axis length (negative endpoints count from the end, then both are
clamped), a single integer index is valid on the axis iff it lies in [-len, len)
and negative values count from the end, and an assigned right-hand side broadcasts
onto an axis iff its size equals the target size or is 1. -/

/-- Python slice-endpoint resolution against an axis of length len. -/
def resolveIdx (i len : ℤ) : ℤ :=
  if i < 0 then max 0 (len + i) else min i len

/-- Python single-integer index resolution: some resolved nonnegative index, or none
when numpy raises IndexError. -/
def pyIndex (i len : ℤ) : Option ℤ :=
  if 0 ≤ i ∧ i < len then some i
  else if -len ≤ i ∧ i < 0 then some (len + i)
  else none

/-- A source axis of size cs broadcasts onto a target axis of size 3 (the channel
axis of the zero-initialized result) iff cs is 3 or 1. -/
def bcastCh (cs : ℕ) : Bool := cs == 3 || cs == 1

/-- Channel index used when reading a source of cs channels under broadcasting. -/
def chIdx (cs k : ℕ) : ℕ := if cs = 1 then 0 else k

/-- The try-block body of Stitcher.blend_images (src/core/stitcher.py:221-257).
none models an exception escaping to the except branch. -/
def blend_core (image1 image2 : Img) (feather_width : ℤ) : Option Img :=
  let h1 := image1.h; let w1 := image1.w
  let h2 := image2.h; let w2 := image2.w
  let h := max h1 h2
  let w := w1 + w2
  -- result = np.zeros((h, w, 3), dtype=np.uint8)
  let pix0 : ℕ → ℕ → ℕ → ℕ := fun _ _ _ => 0
  -- result[:h1, :w1] = image1
  if !bcastCh image1.c then none else
  let pixA : ℕ → ℕ → ℕ → ℕ := fun y x k =>
    if y < h1 ∧ x < w1 then image1.pix y x (chIdx image1.c k) else pix0 y x k
  let overlap_start : ℤ := (w1 : ℤ) - feather_width
  let overlap_end : ℤ := (w1 : ℤ)
  -- result[:h2, overlap_end:overlap_end + w2 - feather_width] = image2[:, feather_width:]
  let lstart := resolveIdx overlap_end (w : ℤ)
  let lstop := resolveIdx (overlap_end + (w2 : ℤ) - feather_width) (w : ℤ)
  let lw : ℤ := max 0 (lstop - lstart)
  let rstart := resolveIdx feather_width (w2 : ℤ)
  let rw : ℤ := (w2 : ℤ) - rstart
  if !bcastCh image2.c then none else
  if !(rw == lw || rw == 1) then none else
  let pixB : ℕ → ℕ → ℕ → ℕ := fun y x k =>
    if y < h2 ∧ lstart ≤ (x : ℤ) ∧ (x : ℤ) < lstart + lw then
      let j : ℕ := if rw = 1 then rstart.toNat else (rstart + ((x : ℤ) - lstart)).toNat
      image2.pix y j (chIdx image2.c k)
    else pixA y x k
  let result : Img := ⟨h, w, 3, pixB⟩
  -- feathering loop
  let m := min h1 h2
  (List.range feather_width.toNat).foldlM (fun (res : Img) (x : ℕ) =>
    let alpha : ℚ := (x : ℚ) / (feather_width : ℚ)
    if overlap_start + (x : ℤ) < (w : ℤ) ∧ (x : ℤ) < (w2 : ℤ) then
      match pyIndex (overlap_start + (x : ℤ)) (w1 : ℤ) with
      | none => none
      | some i1 =>
        if !(image1.c == image2.c || image1.c == 1 || image2.c == 1) then none else
        let cc := max image1.c image2.c
        if !(cc == 3 || cc == 1) then none else
        match pyIndex (overlap_start + (x : ℤ)) (w : ℤ) with
        | none => none
        | some ri =>
          let pixF : ℕ → ℕ → ℕ → ℕ := fun y xx k =>
            if y < m ∧ (xx : ℤ) = ri then
              let kk := if cc = 1 then 0 else k
              let a : ℚ := (image1.pix y i1.toNat (chIdx image1.c kk) : ℚ)
              let b : ℚ := (image2.pix y x (chIdx image2.c kk) : ℚ)
              (⌊(1 - alpha) * a + alpha * b⌋).toNat % 256
            else res.pix y xx k
          some ⟨res.h, res.w, res.c, pixF⟩
    else some res) result

/-- Embedding of Stitcher.blend_images (src/core/stitcher.py:206-261): the result of
the try block, or image1 itself when the body raises. -/
def blend_images (image1 image2 : Img) (feather_width : ℤ) : Img :=
  (blend_core image1 image2 feather_width).getD image1

/-! ## Orientation: Stitcher.apply_orientation (src/core/stitcher.py:263-297)

cv2.getRotationMatrix2D and cv2.warpAffine are embedded over the reals: warpAffine
(without the inverse-map flag) first inverts the 2x3 affine matrix, then computes
each destination pixel by bilinear interpolation (the default INTER_LINEAR) of the
source at the inversely mapped coordinates, with constant black border; the
interpolated value is rounded to the nearest integer.  OpenCV evaluates this in
fixed-point arithmetic; the claims below only exercise coordinates where the
interpolation is exact, so the real-valued model agrees with it there.
The try block of apply_orientation cannot raise on a well-shaped array, so the
except branch (return image) is not reachable in this model. -/

/-- A 2x3 affine matrix, rows (a b c) and (d e f). -/
structure Aff where
  a : ℝ
  b : ℝ
  c : ℝ
  d : ℝ
  e : ℝ
  f : ℝ

/-- Embedding of cv2.invertAffineTransform: the affine inverse; when the determinant
is zero OpenCV produces the zero matrix, which division by zero in Mathlib
reproduces. -/
noncomputable def invertAffineTransform (m : Aff) : Aff :=
  let det := m.a * m.e - m.b * m.d
  let iA := m.e / det
  let iB := -m.b / det
  let iD := -m.d / det
  let iE := m.a / det
  ⟨iA, iB, -(iA * m.c + iB * m.f), iD, iE, -(iD * m.c + iE * m.f)⟩

/-- Bilinear interpolation of channel k of the image at real source coordinates,
with zero (black) outside the image, rounded to the nearest integer. -/
noncomputable def bilinearSample (img : Img) (k : ℕ) (fx fy : ℝ) : ℕ :=
  let x0 : ℤ := ⌊fx⌋
  let y0 : ℤ := ⌊fy⌋
  let wa : ℝ := fx - (x0 : ℝ)
  let wb : ℝ := fy - (y0 : ℝ)
  let P : ℤ → ℤ → ℝ := fun X Y =>
    if 0 ≤ X ∧ X < (img.w : ℤ) ∧ 0 ≤ Y ∧ Y < (img.h : ℤ) then
      (img.pix Y.toNat X.toNat k : ℝ)
    else 0
  let v := (1 - wa) * (1 - wb) * P x0 y0 + wa * (1 - wb) * P (x0 + 1) y0 +
    (1 - wa) * wb * P x0 (y0 + 1) + wa * wb * P (x0 + 1) (y0 + 1)
  (⌊v + 1 / 2⌋).toNat

/-- Embedding of cv2.warpAffine(img, m, (dw, dh)) with the default flags:
destination pixel (x, y) is the bilinear sample of the source at the affine-inverse
image of (x, y). -/
noncomputable def warpAffine (img : Img) (m : Aff) (dw dh : ℕ) : Img :=
  let im := invertAffineTransform m
  ⟨dh, dw, img.c, fun y x k =>
    bilinearSample img k (im.a * (x : ℝ) + im.b * (y : ℝ) + im.c)
      (im.d * (x : ℝ) + im.e * (y : ℝ) + im.f)⟩

/-- Embedding of cv2.getRotationMatrix2D(center, angle, scale); the angle is in
degrees, counter-clockwise. -/
noncomputable def getRotationMatrix2D (cx cy angle scale : ℝ) : Aff :=
  let alpha := scale * Real.cos (angle * Real.pi / 180)
  let beta := scale * Real.sin (angle * Real.pi / 180)
  ⟨alpha, beta, (1 - alpha) * cx - beta * cy, -beta, alpha, beta * cx + (1 - alpha) * cy⟩

/-- Embedding of Stitcher.apply_orientation (src/core/stitcher.py:263-297): only the
roll rotation about the integer image center is applied; the yaw and pitch arguments
are accepted but unused (the source comment defers them to a later implementation). -/
noncomputable def apply_orientation (image : Img) (yaw pitch roll : ℝ) : Img :=
  let center : ℝ × ℝ := (((image.w / 2 : ℕ) : ℝ), ((image.h / 2 : ℕ) : ℝ))
  let rotation_matrix := getRotationMatrix2D center.1 center.2 roll 1
  warpAffine image rotation_matrix image.w image.h

/-- Python int() applied to a real: truncation toward zero. -/
noncomputable def pyInt (r : ℝ) : ℤ :=
  if 0 ≤ r then ⌊r⌋ else ⌈r⌉

/-- Circular (wrap-around) horizontal shift of the columns: destination column x
takes source column (x + s) mod w, i.e. np.hstack of img sliced at s and before s. -/
def circShiftX (img : Img) (s : ℤ) : Img :=
  ⟨img.h, img.w, img.c, fun y x k => img.pix y (((x : ℤ) + s).emod (img.w : ℤ)).toNat k⟩

/-- Circular (wrap-around) vertical shift of the rows, as np.vstack of img sliced at
s and before s. -/
def circShiftY (img : Img) (s : ℤ) : Img :=
  ⟨img.h, img.w, img.c, fun y x k => img.pix (((y : ℤ) + s).emod (img.h : ℤ)).toNat x k⟩

/-- The orientation operation as the specification describes it (spec section 4.2):
roll realized as the 2-D rotation about the image center on the same canvas, then a
circular horizontal shift by int(w * yaw / 360) pixels and a circular vertical shift
by int(h * pitch / 180) pixels.  Stated here only to be compared with
apply_orientation, the operation the source actually implements. -/
noncomputable def specOrientation (img : Img) (yaw pitch roll : ℝ) : Img :=
  let center : ℝ × ℝ := (((img.w / 2 : ℕ) : ℝ), ((img.h / 2 : ℕ) : ℝ))
  let rotated := warpAffine img (getRotationMatrix2D center.1 center.2 roll 1) img.w img.h
  let sx := pyInt ((img.w : ℝ) * yaw / 360)
  let sy := pyInt ((img.h : ℝ) * pitch / 180)
  circShiftY (circShiftX rotated sx) sy

/-! ## Orchestrator: StitchingThread.run (src/gui/stitching_thread.py:92-294)

The run method is embedded as a pure function from the job settings and the
outcomes of the collaborator calls to the ordered list of events it emits.  Log-text
events are omitted (the claims are about step, progress, error, preview and
completion events).  The cooperative cancelled flag is supplied as a predicate on
the index of the check_cancelled call (the source checks it after each of the first
six progress emissions); the paused flag is not modelled — check_paused returns
immediately when it is never set, which is the regime of every claim below.
Unmodelled exceptions (filesystem failures inside the try block) are outside the
outcome parameters. -/

/-- The events the thread emits, in order: step_update for stage n (stage 8 is the
final cleanup message), progress_update, error_occurred, preview_ready, finished. -/
inductive Ev
  | step (stage : ℕ)
  | progress (cur tot : ℕ)
  | error
  | preview
  | finished (ok : Bool)
  deriving DecidableEq

/-- Job settings read from the settings dict (with their source defaults). -/
structure Settings where
  sync_offset : ℤ
  metadata_enabled : Bool
  insta360_compatible : Bool

/-- Outcomes of the collaborator calls made during the run, plus the cancelled flag
as seen by the i-th check_cancelled call. -/
structure Outcomes where
  calibOk : Bool
  frontConcatOk : Bool
  backConcatOk : Bool
  syncOk : Bool
  ret1 : Bool
  ret2 : Bool
  panoramaOk : Bool
  encodeOk : Bool
  insta360Ok : Bool
  insertMetaOk : Bool
  cancelledAt : ℕ → Bool

/-- Embedding of StitchingThread.run (src/gui/stitching_thread.py:92-294), written
with one local definition per stage, from the last stage backwards; each stage either
appends its failure events and stops, stops silently on cancellation, or continues
with the next stage. -/
def run (st : Settings) (o : Outcomes) : List Ev :=
  let total := 7
  -- stage 7: metadata insertion, then cleanup and success
  let tail7 : List Ev := [Ev.progress 7 total, Ev.step 8, Ev.finished true]
  let stage7 : List Ev :=
    Ev.step 7 ::
    (if st.metadata_enabled then
      (if st.insta360_compatible then
        (if !o.insta360Ok then [Ev.error, Ev.finished false] else tail7)
      else tail7)  -- insert_metadata failure is log-only
    else tail7)
  -- stage 6: encode
  let stage6 : List Ev :=
    Ev.step 6 ::
    (if !o.encodeOk then [Ev.error, Ev.finished false]
     else Ev.progress 6 total :: (if o.cancelledAt 5 then [] else stage7))
  -- stage 5: stitch the representative frame; preview only when both reads and the
  -- panorama succeed
  let stage5 : List Ev :=
    Ev.step 5 ::
    ((if o.ret1 && o.ret2 && o.panoramaOk then [Ev.preview] else []) ++
      Ev.progress 5 total :: (if o.cancelledAt 4 then [] else stage6))
  -- stage 4: sync adjustment, skipped when the offset is zero but always counted
  let afterSync : List Ev :=
    Ev.progress 4 total :: (if o.cancelledAt 3 then [] else stage5)
  let stage4 : List Ev :=
    if st.sync_offset ≠ 0 then
      Ev.step 4 :: (if !o.syncOk then [Ev.error, Ev.finished false] else afterSync)
    else afterSync
  -- stage 3: back concat
  let stage3 : List Ev :=
    Ev.step 3 ::
    (if !o.backConcatOk then [Ev.error, Ev.finished false]
     else Ev.progress 3 total :: (if o.cancelledAt 2 then [] else stage4))
  -- stage 2: front concat
  let stage2 : List Ev :=
    Ev.step 2 ::
    (if !o.frontConcatOk then [Ev.error, Ev.finished false]
     else Ev.progress 2 total :: (if o.cancelledAt 1 then [] else stage3))
  -- stage 1: calibration
  Ev.step 1 ::
  (if !o.calibOk then [Ev.error, Ev.finished false]
   else Ev.progress 1 total :: (if o.cancelledAt 0 then [] else stage2))

/-- The (current, total) progress tuples of an event trace, in emission order. -/
def progressEvents (tr : List Ev) : List (ℕ × ℕ) :=
  tr.filterMap fun e =>
    match e with
    | Ev.progress c t => some (c, t)
    | _ => none

/-! ### Model validation on concrete inputs -/

/-- Validation of the blend model: on two 1-by-2 3-channel images with feather 1,
the column placed from image1 keeps its value, the column copied from the
non-overlapping part of image2 keeps its value, and the last canvas column stays
black. -/
theorem blend_model_values :
    (blend_images ⟨1, 2, 3, fun _ _ _ => 100⟩ ⟨1, 2, 3, fun _ _ _ => 200⟩ 1).pix 0 0 0 = 100 ∧
    (blend_images ⟨1, 2, 3, fun _ _ _ => 100⟩ ⟨1, 2, 3, fun _ _ _ => 200⟩ 1).pix 0 2 0 = 200 ∧
    (blend_images ⟨1, 2, 3, fun _ _ _ => 100⟩ ⟨1, 2, 3, fun _ _ _ => 200⟩ 1).pix 0 3 0 = 0 := by
  refine ⟨by decide, by decide, by decide⟩

/-- Validation of the discovery model on the file set of the repository test
test_preprocessor.py: the source sends every chaptered file to the front list
(their third character is 0) and classifies the primary files by number parity, so
GOPR0001 (odd) lands in the back list — the test asserting three files per list
contradicts the source. -/
theorem detect_model_test_scenario :
    detect_gopro_files true
      ["GOPR0001.MP4", "GP010001.MP4", "GP020001.MP4", "GOPR0002.MP4", "GP010002.MP4",
        "GP020002.MP4", "random_file.mp4", "document.txt"] =
    (["GOPR0002.MP4", "GP010001.MP4", "GP010002.MP4", "GP020001.MP4", "GP020002.MP4"],
      ["GOPR0001.MP4"], false) := by
  decide

/-- Validation of the regex model: the literal dot must follow the digit run
immediately (no backtracking into the run can ever place a digit where the dot is
required), at least one digit is required for the primary shape and two for the
chaptered shape, and the patterns are not end-anchored. -/
theorem regex_model_edge_cases :
    matchGOPR "GOPR12MP4.MP4" = none ∧ matchGOPR "GOPR.MP4" = none ∧
    matchGOPR "GOPR0002.MP4" = some 2 ∧ matchGOPR "GOPR12.MP4.MP4" = some 12 ∧
    matchGP "GP21.MP4" = some 2 ∧ matchGP "GP2.MP4" = none ∧
    matchGP "GP12xMP4.MP4" = none ∧ matchGP "GP010001.MP4" = some 0 := by
  refine ⟨by decide, by decide, by decide, by decide, by decide, by decide, by decide, by decide⟩

/-! ## Claims -/

/-- Claim C9: for every path that does not denote an existing directory, asset
discovery returns a pair of two empty lists, reports the error, and never raises an
exception — the error branch returns the empty result immediately, and the embedding
is a total function. -/
theorem C9_missing_directory (listing : List String) :
    detect_gopro_files false listing = ([], [], true) := rfl

/-- Claim C7: sync adjustment converts the frame offset to seconds using the frame
rate of the front stream; a positive offset copies the front stream and trims the back
stream from offsetSeconds onward, a negative offset inverts the roles, a zero offset
copies both; every branch uses lossless stream-copy for both codecs. -/
theorem C7_adjust_sync (fps : ℚ) (off : ℤ) (hfps : fps ≠ 0) :
    (0 < off → adjust_sync fps off = some (FfOp.copy, FfOp.trim ((off : ℚ) / fps))) ∧
    (off < 0 → adjust_sync fps off = some (FfOp.trim |(off : ℚ) / fps|, FfOp.copy)) ∧
    (off = 0 → adjust_sync fps off = some (FfOp.copy, FfOp.copy)) ∧
    (∀ p q, adjust_sync fps off = some (p, q) →
      p.vcodecCopy = true ∧ p.acodecCopy = true ∧ q.vcodecCopy = true ∧ q.acodecCopy = true) := by
  unfold adjust_sync
  rw [if_neg hfps]
  refine ⟨fun h => ?_, fun h => ?_, fun h => ?_, fun p q hpq => ?_⟩
  · rw [if_pos h]
  · rw [if_neg (by omega), if_pos h]
  · rw [if_neg (by omega), if_neg (by omega)]
  · revert hpq
    split_ifs <;> intro hpq <;>
      simp only [Option.some.injEq, Prod.mk.injEq] at hpq <;>
      obtain ⟨hp, hq⟩ := hpq <;> subst hp <;> subst hq <;>
      exact ⟨rfl, rfl, rfl, rfl⟩

/-- Witness for C7 at fps 30: the zero-offset branch copies both streams. -/
theorem C7_adjust_sync_witness :
    (30 : ℚ) ≠ 0 ∧ adjust_sync 30 0 = some (FfOp.copy, FfOp.copy) :=
  ⟨by norm_num, (C7_adjust_sync 30 0 (by norm_num)).2.2.1 rfl⟩

/-- Claim C10: whenever the internal blending computation raises (the try-block body
evaluates to none), blend_images returns the first input image itself, unchanged. -/
theorem C10_blend_exception_fallback (image1 image2 : Img) (f : ℤ)
    (h : blend_core image1 image2 f = none) :
    blend_images image1 image2 f = image1 := by
  unfold blend_images
  rw [h]
  rfl

/-- Witness for C10: a four-channel first image cannot broadcast onto the
three-channel result canvas, numpy raises, and the blend returns the first image. -/
theorem C10_blend_exception_fallback_witness :
    blend_core ⟨1, 2, 4, fun _ _ _ => 100⟩ ⟨1, 2, 3, fun _ _ _ => 200⟩ 1 = none ∧
    blend_images ⟨1, 2, 4, fun _ _ _ => 100⟩ ⟨1, 2, 3, fun _ _ _ => 200⟩ 1 =
      ⟨1, 2, 4, fun _ _ _ => 100⟩ := by
  have h : blend_core ⟨1, 2, 4, fun _ _ _ => 100⟩ ⟨1, 2, 3, fun _ _ _ => 200⟩ 1 = none :=
    Option.isNone_iff_eq_none.mp (by decide)
  exact ⟨h, C10_blend_exception_fallback _ _ _ h⟩

/-- Claim C1 is refuted by the code: at two 1-by-2 3-channel inputs with feather
width 1 the blended canvas has height max(h1, h2) = 1 but width w1 + w2 = 4, not
w1 + w2 - f = 3; the claimed width formula does not hold (the last feather-width
columns of the canvas stay black). -/
theorem C1_blend_width_bug :
    (blend_images ⟨1, 2, 3, fun _ _ _ => 100⟩ ⟨1, 2, 3, fun _ _ _ => 200⟩ 1).w = 4 ∧
    (blend_images ⟨1, 2, 3, fun _ _ _ => 100⟩ ⟨1, 2, 3, fun _ _ _ => 200⟩ 1).h = 1 ∧
    (blend_images ⟨1, 2, 3, fun _ _ _ => 100⟩ ⟨1, 2, 3, fun _ _ _ => 200⟩ 1).w ≠ 2 + 2 - 1 := by
  exact ⟨by decide, by decide, by decide⟩

/-- Claim C8 as stated is false: when subprocess.run raises (for example the ffmpeg
executable is missing), the except branch returns before the unlink line and the
temporary playlist file is left behind. -/
theorem C8_counterexample :
    CEv.writePlaylist ∈ (concat_videos ["a", "b"] true RunOutcome.raises).2 ∧
    CEv.unlinkPlaylist ∉ (concat_videos ["a", "b"] true RunOutcome.raises).2 ∧
    (concat_videos ["a", "b"] true RunOutcome.raises).1 = false := by
  decide

/-- Claim C8 amended: for every multi-file concatenation call in which the external
invocation returns (with any exit status), the temporary playlist is removed before
the operation returns, and the call succeeds exactly when the exit status is zero;
an exception during the invocation leaves the playlist behind. -/
theorem C8_amended (files : List String) (copyOk : Bool) (c : ℤ)
    (h : 2 ≤ files.length) :
    (concat_videos files copyOk (RunOutcome.exit c)).2 =
      [CEv.writePlaylist, CEv.runFfmpeg, CEv.unlinkPlaylist] ∧
    ((concat_videos files copyOk (RunOutcome.exit c)).1 = true ↔ c = 0) := by
  cases files with
  | nil => simp at h
  | cons a t =>
    cases t with
    | nil => simp at h
    | cons b l2 => simp [concat_videos]

/-- Witness for C8 amended at a two-file list and exit status 0. -/
theorem C8_amended_witness :
    2 ≤ (["a", "b"] : List String).length ∧
    ((concat_videos ["a", "b"] true (RunOutcome.exit 0)).2 =
      [CEv.writePlaylist, CEv.runFfmpeg, CEv.unlinkPlaylist] ∧
    ((concat_videos ["a", "b"] true (RunOutcome.exit 0)).1 = true ↔ (0 : ℤ) = 0)) :=
  ⟨by decide, C8_amended ["a", "b"] true 0 (by decide)⟩

/-- A document whose camera_calibration section carries a valid camera_matrix_left
but no camera_matrix_right: the load fails after the first field was assigned. -/
def docBad : Yaml :=
  Yaml.dict [("camera_calibration", Yaml.dict [("camera_matrix_left", Yaml.num 1)])]

/-- A well-formed document with all six numeric calibration fields. -/
def docGood : Yaml :=
  Yaml.dict [("camera_calibration", Yaml.dict
    [("camera_matrix_left", Yaml.list [Yaml.num 1000, Yaml.num 0, Yaml.num 960]),
     ("camera_matrix_right", Yaml.list [Yaml.num 1000, Yaml.num 0, Yaml.num 960]),
     ("distortion_left", Yaml.list [Yaml.num (1/10), Yaml.num (-(2/10))]),
     ("distortion_right", Yaml.list [Yaml.num (1/10), Yaml.num (-(2/10))]),
     ("rotation_matrix", Yaml.list [Yaml.num 1, Yaml.num 0, Yaml.num 0]),
     ("translation_vector", Yaml.list [Yaml.num 100, Yaml.num 0, Yaml.num 0])])]

/-- Claim C2 as stated is false: on a document carrying only camera_matrix_left the
load fails, yet the camera_matrix_left attribute has already been populated, so the
state is neither fully populated nor fully absent — the load is not atomic. -/
theorem C2_counterexample :
    ¬ ((load_calibration docBad {}).1 = true ∧ allSix (load_calibration docBad {}).2 ∨
       (load_calibration docBad {}).1 = false ∧ noneOfSix (load_calibration docBad {}).2) := by
  decide

/-- Claim C2 amended: if the load succeeds, all six calibration fields are
populated; a failed load returns failure but may leave the fields assigned before
the failing one populated (assignments are not rolled back). -/
theorem C2_amended (doc : Yaml) (s : StitcherState)
    (h : (load_calibration doc s).1 = true) :
    allSix (load_calibration doc s).2 := by
  revert h
  unfold load_calibration allSix
  repeat' split
  all_goals simp

/-- Witness for C2 amended: the well-formed six-field document loads successfully
and populates every field. -/
theorem C2_amended_witness :
    (load_calibration docGood {}).1 = true ∧ allSix (load_calibration docGood {}).2 :=
  ⟨by decide, C2_amended docGood {} (by decide)⟩

/-- The filename shapes and embedded numeric ids as the specification words them
(spec section 4.4): the primary shape is GOPR followed by the embedded number and
the video extension; the chaptered shape is GP followed by a two-digit prefix and
the embedded number, then the extension.  Returns the embedded id. -/
def specIdOf (name : String) : Option ℕ :=
  match name.toList with
  | 'G' :: 'O' :: 'P' :: 'R' :: rest =>
    let ds := rest.takeWhile Char.isDigit
    if ds ≠ [] ∧ rest.drop ds.length = ['.', 'M', 'P', '4'] then some (natOfDigits ds)
    else none
  | 'G' :: 'P' :: d1 :: d2 :: rest =>
    if d1.isDigit ∧ d2.isDigit then
      let ds := rest.takeWhile Char.isDigit
      if ds ≠ [] ∧ rest.drop ds.length = ['.', 'M', 'P', '4'] then some (natOfDigits ds)
      else none
    else none
  | _ => none

/-- Discovery as claim C6 words it: every file of either shape goes to the front or
back list by the parity of its embedded numeric id (even to front, odd to back),
other files are ignored, and both lists are sorted by filename. -/
def specClassified (listing : List String) : List String × List String :=
  (sortNames (listing.filter fun n => (specIdOf n).any fun i => i % 2 == 0),
   sortNames (listing.filter fun n => (specIdOf n).any fun i => i % 2 == 1))

/-- Claim C6 as stated is false: the chaptered file GP010001.MP4 has embedded id
0001, which is odd, so the claim sends it to the back list; the source classifies
chaptered files by the parity of the first digit after GP (here 0, even) and puts it
in the front list. -/
theorem C6_counterexample :
    ¬ (detect_gopro_files true ["GP010001.MP4"] =
      ((specClassified ["GP010001.MP4"]).1, (specClassified ["GP010001.MP4"]).2, false)) := by
  decide

/-- The classification loop builds exactly the front and back sublists, in listing
order. -/
theorem classifyLoop_eq_filter (l : List String) :
    classifyLoop l =
      (l.filter fun n => classOf n == some true, l.filter fun n => classOf n == some false) := by
  induction l with
  | nil => rfl
  | cons n ns ih =>
    unfold classifyLoop
    rw [ih]
    cases hc : classOf n with
    | none => simp [List.filter_cons, hc]
    | some b => cases b <;> simp [List.filter_cons, hc]

/-- A filename the source sends to the front list: it matches the primary shape with
an even number, or the chaptered shape with an even first digit after the prefix. -/
def frontFile (n : String) : Bool := classOf n == some true

/-- A filename the source sends to the back list. -/
def backFile (n : String) : Bool := classOf n == some false

/-- Claim C6 amended: for an existing directory, discovery keeps exactly the globbed
filenames, assigns each file of the primary shape by the parity of its embedded
number (even to front, odd to back), assigns each file of the chaptered shape by the
parity of the first digit after the two-letter prefix (even to front, odd to back),
ignores all other files, and returns both lists sorted by filename. -/
theorem C6_amended (listing : List String) :
    detect_gopro_files true listing =
      (sortNames ((listing.filter globMP4).filter frontFile),
       sortNames ((listing.filter globMP4).filter backFile), false) := by
  simp only [detect_gopro_files, Bool.not_true, Bool.false_eq_true, if_false,
    classifyLoop_eq_filter]
  rfl

/-- Claim C3: on every run in which all stages succeed and cancellation is never
requested, the emitted (current, total) progress events are exactly (1,7) through
(7,7) in that strictly increasing order — the sync-adjust stage advances the counter
even when the offset is zero and its work is skipped — and the run ends by reporting
success. -/
theorem C3_progress_trace (st : Settings) (o : Outcomes)
    (h1 : o.calibOk = true) (h2 : o.frontConcatOk = true) (h3 : o.backConcatOk = true)
    (h4 : o.syncOk = true) (h5 : o.ret1 = true) (h6 : o.ret2 = true)
    (h7 : o.panoramaOk = true) (h8 : o.encodeOk = true) (h9 : o.insta360Ok = true)
    (hc : ∀ i, o.cancelledAt i = false) :
    progressEvents (run st o) =
      [(1, 7), (2, 7), (3, 7), (4, 7), (5, 7), (6, 7), (7, 7)] ∧
    (run st o).getLast? = some (Ev.finished true) := by
  by_cases hs : st.sync_offset = 0 <;> by_cases hm : st.metadata_enabled <;>
    by_cases hi : st.insta360_compatible <;>
    simp [run, progressEvents, h1, h2, h3, h4, h5, h6, h7, h8, h9,
      hc 0, hc 1, hc 2, hc 3, hc 4, hc 5, hs, hm, hi, List.getLast?]

/-- Witness for C3: a concrete zero-offset run with every collaborator succeeding
and no cancellation. -/
theorem C3_progress_trace_witness :
    progressEvents (run ⟨0, true, false⟩
      ⟨true, true, true, true, true, true, true, true, true, true, fun _ => false⟩) =
      [(1, 7), (2, 7), (3, 7), (4, 7), (5, 7), (6, 7), (7, 7)] ∧
    (run ⟨0, true, false⟩
      ⟨true, true, true, true, true, true, true, true, true, true, fun _ => false⟩).getLast? =
      some (Ev.finished true) :=
  C3_progress_trace ⟨0, true, false⟩
    ⟨true, true, true, true, true, true, true, true, true, true, fun _ => false⟩
    rfl rfl rfl rfl rfl rfl rfl rfl rfl (fun _ => rfl)

/-- At angle zero and scale one, getRotationMatrix2D is the identity affine matrix
for every center. -/
theorem getRotationMatrix2D_zero (cx cy : ℝ) :
    getRotationMatrix2D cx cy 0 1 = ⟨1, 0, 0, 0, 1, 0⟩ := by
  simp [getRotationMatrix2D]

/-- The affine inverse of the identity matrix is the identity matrix. -/
theorem invertAffineTransform_id :
    invertAffineTransform ⟨1, 0, 0, 0, 1, 0⟩ = ⟨1, 0, 0, 0, 1, 0⟩ := by
  norm_num [invertAffineTransform]

/-- Rounding a natural number plus one half floors back to that number. -/
theorem floor_natCast_add_half (n : ℕ) : ⌊(n : ℝ) + 1 / 2⌋ = (n : ℤ) :=
  Int.floor_eq_iff.mpr ⟨by push_cast; linarith, by push_cast; linarith⟩

/-- Bilinear sampling at exact integer in-bounds coordinates returns the pixel
exactly: interpolation weights collapse and the rounding is the identity. -/
theorem bilinearSample_natCast (img : Img) (k x y : ℕ) (hx : x < img.w) (hy : y < img.h) :
    bilinearSample img k (x : ℝ) (y : ℝ) = img.pix y x k := by
  unfold bilinearSample
  simp only [Int.floor_natCast, Int.cast_natCast, sub_self, sub_zero, one_mul, mul_one,
    zero_mul, mul_zero, add_zero, zero_add]
  rw [if_pos ⟨Int.natCast_nonneg x, by exact_mod_cast hx, Int.natCast_nonneg y,
    by exact_mod_cast hy⟩]
  rw [Int.toNat_natCast, Int.toNat_natCast, floor_natCast_add_half, Int.toNat_natCast]

/-- With roll zero, apply_orientation leaves every in-bounds pixel unchanged,
whatever the yaw and pitch arguments. -/
theorem apply_orientation_roll_zero (img : Img) (yaw pitch : ℝ) (y x k : ℕ)
    (hy : y < img.h) (hx : x < img.w) :
    (apply_orientation img yaw pitch 0).pix y x k = img.pix y x k := by
  simp only [apply_orientation, warpAffine]
  rw [getRotationMatrix2D_zero, invertAffineTransform_id]
  simp only [one_mul, zero_mul, add_zero, zero_add]
  exact bilinearSample_natCast img k x y hx hy

/-- Claim C5: applying the orientation operation with yaw, pitch and roll all zero
returns an image equal to the input, pixel for pixel and shape for shape (the
zero-angle rotation matrix is exactly the identity and resampling at exact integer
coordinates is exact). -/
theorem C5_orientation_identity (img : Img) :
    imgEq (apply_orientation img 0 0 0) img :=
  ⟨rfl, rfl, rfl, fun y hy x hx k _ => apply_orientation_roll_zero img 0 0 y x k hy hx⟩

/-- Claim C4 amended: the orientation operation applies only the roll rotation about
the image center on the same canvas; the yaw and pitch arguments are accepted but
have no effect on the result (no circular shift is performed). -/
theorem C4_orientation_roll_only (img : Img) (yaw pitch roll : ℝ) :
    apply_orientation img yaw pitch roll = apply_orientation img 0 0 roll ∧
    apply_orientation img yaw pitch roll =
      warpAffine img
        (getRotationMatrix2D ((img.w / 2 : ℕ) : ℝ) ((img.h / 2 : ℕ) : ℝ) roll 1)
        img.w img.h ∧
    (apply_orientation img yaw pitch roll).h = img.h ∧
    (apply_orientation img yaw pitch roll).w = img.w ∧
    (apply_orientation img yaw pitch roll).c = img.c :=
  ⟨rfl, rfl, rfl, rfl, rfl⟩

/-- A 1-by-2 test image whose two columns differ. -/
def imgLR : Img := ⟨1, 2, 3, fun _ x _ => if x = 0 then 10 else 20⟩

/-- Claim C4 as stated is false: at yaw 180, pitch 0, roll 0 on the 1-by-2 test
image, the claimed behavior shifts the columns circularly by half the width and
swaps them, but the source applies no shift at all (the roll-zero rotation is the
identity), so the results differ at pixel (0, 0). -/
theorem C4_counterexample :
    ¬ imgEq (apply_orientation imgLR 180 0 0) (specOrientation imgLR 180 0 0) := by
  intro h
  have hp := h.2.2.2 0 (by norm_num : (0 : ℕ) < 1) 0 (by norm_num : (0 : ℕ) < 2) 0
    (by norm_num : (0 : ℕ) < 3)
  have lhs : (apply_orientation imgLR 180 0 0).pix 0 0 0 = 10 := by
    rw [apply_orientation_roll_zero imgLR 180 0 0 0 0 (by norm_num [imgLR])
      (by norm_num [imgLR])]
    rfl
  have hsx : pyInt ((imgLR.w : ℝ) * 180 / 360) = 1 := by
    have hw : ((imgLR.w : ℕ) : ℝ) * 180 / 360 = 1 := by norm_num [imgLR]
    rw [hw]
    simp [pyInt]
  have hsy : pyInt ((imgLR.h : ℝ) * 0 / 180) = 0 := by
    simp [pyInt]
  have rhs : (specOrientation imgLR 180 0 0).pix 0 0 0 = 20 := by
    simp only [specOrientation, circShiftX, circShiftY, hsx, hsy]
    norm_num
    exact apply_orientation_roll_zero imgLR 0 0 0 1 0 (by norm_num [imgLR])
      (by norm_num [imgLR])
  rw [lhs, rhs] at hp
  exact absurd hp (by norm_num)

end PyStitch
